import Mathlib

/-!
Shallow embedding of the munster-irish-coach server handlers and browser
client. Each JavaScript handler becomes a pure Lean function from the
request, the process environment, and an oracle describing the outcome of
the single outbound provider HTTP call, to an HTTP response together with
the outbound request (if any) that the handler issued to the provider.
Exceptions thrown by the JavaScript runtime are modelled with
`Except String`, the error string standing for `error.message`.
-/

/-- JavaScript truthiness of an optional string: `undefined` and the empty
string are falsy, every other string is truthy. -/
def truthy : Option String → Bool
  | none => false
  | some s => s ≠ ""

/-- JavaScript `x || fallback` on an optional string. -/
def jsOr (x : Option String) (d : String) : String :=
  match x with
  | some s => if s = "" then d else s
  | none => d

/-- JavaScript `error.message || 'Unknown error'` where the string models
the exception message. -/
def jsMessage (e : String) : String :=
  if e = "" then "Unknown error" else e

/-- The JSON bodies the handlers can respond with. -/
inductive RespBody where
  /-- `res.end()` with no body (OPTIONS preflight). -/
  | empty : RespBody
  /-- `{ error: "<msg>" }` with a string message. -/
  | errorMsg : String → RespBody
  /-- `{ error: <json> }` embedding a provider error object (its
  serialization kept abstract as a string). -/
  | errorPayload : String → RespBody
  /-- `{ text, language }` from the transcription handlers. -/
  | transcript : String → String → RespBody
  /-- Raw audio bytes sent with `res.send(Buffer...)`. -/
  | audioData : List Nat → RespBody
  /-- A JSON value passed through verbatim (serialization abstract). -/
  | json : String → RespBody
  deriving DecidableEq, Repr

/-- An HTTP response as produced by a handler: status code, optional
explicitly-set Content-Type header, body. -/
structure HttpResponse where
  status : Nat
  contentType : Option String := none
  body : RespBody
  deriving DecidableEq, Repr

/-- What a handler invocation produced: the HTTP response sent to the
client and, when the handler reached its provider call, the outbound
request it issued. -/
structure HandlerResult (Out : Type) where
  response : HttpResponse
  outbound : Option Out
  deriving DecidableEq, Repr

/-- The process environment variables the handlers read. -/
structure Env where
  AZURE_SPEECH_KEY : Option String
  AZURE_SPEECH_REGION : Option String
  ELEVENLABS_API_KEY : Option String
  ANTHROPIC_API_KEY : Option String
  deriving DecidableEq, Repr

/-! ## Base64 decoding (`Buffer.from(audio, 'base64')`) -/

/-- Value of one base64 alphabet character; `none` for characters outside
the alphabet (Node ignores them, including `=` padding). -/
def base64Val (c : Char) : Option Nat :=
  if 'A' ≤ c ∧ c ≤ 'Z' then some (c.toNat - 65)
  else if 'a' ≤ c ∧ c ≤ 'z' then some (c.toNat - 97 + 26)
  else if '0' ≤ c ∧ c ≤ '9' then some (c.toNat - 48 + 52)
  else if c = '+' then some 62
  else if c = '/' then some 63
  else none

/-- Reassemble 6-bit groups into bytes, four groups to three bytes, with
Node's handling of a trailing partial group. -/
def base64Groups : List Nat → List Nat
  | a :: b :: c :: d :: rest =>
      (a * 4 + b / 16) :: ((b % 16) * 16 + c / 4) :: ((c % 4) * 64 + d) :: base64Groups rest
  | [a, b] => [a * 4 + b / 16]
  | [a, b, c] => [a * 4 + b / 16, (b % 16) * 16 + c / 4]
  | _ => []

/-- `Buffer.from(s, 'base64')` as a list of byte values. -/
def base64Decode (s : String) : List Nat :=
  base64Groups (s.data.filterMap base64Val)

/-! ## Transcription handlers -/

/-- One entry of `result.combinedPhrases` from the Azure Fast
Transcription API. -/
structure CombinedPhrase where
  text : Option String
  deriving DecidableEq, Repr

/-- One entry of `result.phrases`. -/
structure PhraseInfo where
  locale : Option String
  deriving DecidableEq, Repr

/-- The JSON result of a successful Azure Fast Transcription call; both
arrays may be absent. -/
structure AzureResult where
  combinedPhrases : Option (List CombinedPhrase)
  phrases : Option (List PhraseInfo)
  deriving DecidableEq, Repr

/-- `result.combinedPhrases?.[0]?.text || ''`. -/
def fullText (r : AzureResult) : String :=
  match r.combinedPhrases with
  | some (p :: _) => jsOr p.text ""
  | _ => ""

/-- `result.phrases?.[0]?.locale || ''`. -/
def detectedLang (r : AzureResult) : String :=
  match r.phrases with
  | some (p :: _) => jsOr p.locale ""
  | _ => ""

deriving instance DecidableEq for Except

/-- The Azure HTTP response as observed by the handler: the `ok` flag,
status, the body as text (read on the error path), and the result of
`.json()` (which can throw). -/
structure AzureHttpResp where
  ok : Bool
  status : Nat
  text : String
  json : Except String AzureResult
  deriving DecidableEq, Repr

/-- Outcome of the outbound `fetch` to Azure: either the fetch itself (or
the form-buffering promise) threw, or a response arrived. -/
abbrev AzureFetch := Except String AzureHttpResp

/-- The `definition` multipart field: `locales`, and for the main variant
a `languageIdentification.candidateLocales` list. -/
structure TranscribeDefinition where
  locales : List String
  candidateLocales : Option (List String)
  deriving DecidableEq, Repr

/-- The multipart POST issued to the Azure Fast Transcription endpoint. -/
structure TranscribeOutbound where
  endpoint : String
  apiKey : String
  audioBytes : List Nat
  filename : String
  audioContentType : String
  definition : TranscribeDefinition
  deriving DecidableEq, Repr

/-- JSON body of a transcription request: the optional `audio` field. -/
structure TranscribeBody where
  audio : Option String
  deriving DecidableEq, Repr

/-- A request to a transcription handler: method and optional parsed JSON
body. -/
structure TranscribeReq where
  method : String
  body : Option TranscribeBody
  deriving DecidableEq, Repr

/-- `res.status(n).json(b)`: a JSON response with no explicit
Content-Type header set by the handler. -/
def jsonResp (status : Nat) (body : RespBody) : HttpResponse :=
  { status := status, body := body }

/-- The fixed error message returned when Azure credentials are absent. -/
def azureConfigError : String :=
  "Azure Speech not configured. Add AZURE_SPEECH_KEY and AZURE_SPEECH_REGION to Vercel environment variables."

/-- The fixed error message returned when the `audio` field is missing. -/
def noAudioError : String :=
  "No audio data received. Expected JSON with \"audio\" field."

/-- The Azure Fast Transcription endpoint built from the region. -/
def azureEndpoint (region : String) : String :=
  "https://" ++ region ++ ".api.cognitive.microsoft.com" ++
    "/speechtotext/transcriptions:transcribe?api-version=2024-11-15"

/-- The common body of both REST transcription handler variants; the
variants differ only in the `definition` field they attach. -/
def transcribeRestCore (definition : TranscribeDefinition) (env : Env)
    (req : TranscribeReq) (azure : AzureFetch) : HandlerResult TranscribeOutbound :=
  if req.method = "OPTIONS" then
    { response := jsonResp 200 .empty, outbound := none }
  else if req.method ≠ "POST" then
    { response := jsonResp 405 (.errorMsg "Method not allowed"), outbound := none }
  else
    let speechKey := env.AZURE_SPEECH_KEY
    let speechRegion := env.AZURE_SPEECH_REGION
    if !truthy speechKey || !truthy speechRegion then
      { response := jsonResp 500 (.errorMsg azureConfigError), outbound := none }
    else
      let audio := (req.body.getD { audio := none }).audio
      if !truthy audio then
        { response := jsonResp 400 (.errorMsg noAudioError), outbound := none }
      else
        let audioBuffer := base64Decode (audio.getD "")
        let outReq : TranscribeOutbound :=
          { endpoint := azureEndpoint (speechRegion.getD ""),
            apiKey := speechKey.getD "",
            audioBytes := audioBuffer,
            filename := "recording.m4a",
            audioContentType := "audio/mp4",
            definition := definition }
        match azure with
        | .error e =>
            { response := jsonResp 500 (.errorMsg ("Transcription failed: " ++ jsMessage e)),
              outbound := some outReq }
        | .ok resp =>
            if !resp.ok then
              { response := jsonResp 502 (.errorMsg ("Azure transcription failed: " ++ resp.text)),
                outbound := some outReq }
            else
              match resp.json with
              | .error e =>
                  { response := jsonResp 500 (.errorMsg ("Transcription failed: " ++ jsMessage e)),
                    outbound := some outReq }
              | .ok result =>
                  { response := jsonResp 200 (.transcript (fullText result) (detectedLang result)),
                    outbound := some outReq }

/-- The deployed transcription handler (`src/api/transcribe.js`): primary
locale `en-IE`, with `en-IE`/`ga-IE` as language-identification
candidates. -/
def transcribeHandler : Env → TranscribeReq → AzureFetch → HandlerResult TranscribeOutbound :=
  transcribeRestCore
    { locales := ["en-IE"], candidateLocales := some ["en-IE", "ga-IE"] }

/-- The alternate REST transcription handler variant: bilingual
`ga-IE`/`en-IE` locales, no language-identification block. -/
def transcribeHandlerRest : Env → TranscribeReq → AzureFetch → HandlerResult TranscribeOutbound :=
  transcribeRestCore
    { locales := ["ga-IE", "en-IE"], candidateLocales := none }

/-! ## SDK transcription handler variant -/

/-- Outcome of `recognizeOnceAsync` delivered to the success callback of
the SDK transcription variant. -/
inductive SdkResult where
  /-- `ResultReason.RecognizedSpeech` with the transcript and the detected
  language from `AutoDetectSourceLanguageResult` (absent when the SDK
  reports none). -/
  | recognizedSpeech (text : String) (language : Option String)
  /-- `ResultReason.NoMatch`. -/
  | noMatch
  /-- `ResultReason.Canceled` with optional `errorDetails`. -/
  | canceled (errorDetails : Option String)
  /-- Any other result reason. -/
  | other
  deriving DecidableEq, Repr

/-- Outcome of the SDK recognition call: the success callback value, or
the error callback message. -/
abbrev SdkRecognize := Except String SdkResult

/-- The recognition request the SDK variant issues to Azure: credentials,
the decoded audio bytes written to the push stream, and the candidate
languages for auto-detection. -/
structure SdkOutbound where
  apiKey : String
  region : String
  audioBytes : List Nat
  languages : List String
  deriving DecidableEq, Repr

/-- The promise-wrapped recognition result: `{ text, language }` resolved
by the callback, or the rejection message (caught by the outer catch). -/
def sdkPromise (r : SdkRecognize) : Except String (String × String) :=
  match r with
  | .error e => .error e
  | .ok (.recognizedSpeech t lang) => .ok (t, jsOr lang "unknown")
  | .ok .noMatch => .ok ("", "")
  | .ok (.canceled details) => .error (jsOr details "Recognition canceled")
  | .ok .other => .ok ("", "")

/-- The SDK transcription handler variant (`part_000`, SDK import): no
CORS/OPTIONS branch, same credential and audio gating, recognition via
the Speech SDK instead of the REST multipart call. -/
def transcribeHandlerSdk (env : Env) (req : TranscribeReq) (sdk : SdkRecognize) :
    HandlerResult SdkOutbound :=
  if req.method ≠ "POST" then
    { response := jsonResp 405 (.errorMsg "Method not allowed"), outbound := none }
  else
    let speechKey := env.AZURE_SPEECH_KEY
    let speechRegion := env.AZURE_SPEECH_REGION
    if !truthy speechKey || !truthy speechRegion then
      { response := jsonResp 500 (.errorMsg azureConfigError), outbound := none }
    else
      let audio := (req.body.getD { audio := none }).audio
      if !truthy audio then
        { response := jsonResp 400 (.errorMsg noAudioError), outbound := none }
      else
        let outReq : SdkOutbound :=
          { apiKey := speechKey.getD "",
            region := speechRegion.getD "",
            audioBytes := base64Decode (audio.getD ""),
            languages := ["ga-IE", "en-IE"] }
        match sdkPromise sdk with
        | .error e =>
            { response := jsonResp 500 (.errorMsg ("Transcription failed: " ++ jsMessage e)),
              outbound := some outReq }
        | .ok (t, lang) =>
            { response := jsonResp 200 (.transcript t lang), outbound := some outReq }

/-! ## Speech-synthesis (speak) handlers -/

/-- JSON body of a speak request: the optional `text` field. -/
structure SpeakBody where
  text : Option String
  deriving DecidableEq, Repr

/-- A request to the speak handler: method and optional parsed JSON body
(`none` models `req.body` being `undefined`, on which the destructuring
`const \x7b text \x7d = req.body` throws). -/
structure SpeakReq where
  method : String
  body : Option SpeakBody
  deriving DecidableEq, Repr

/-- The POST the speak handler issues to the ElevenLabs text-to-speech
endpoint; the API key is forwarded as-is from the environment, with no
presence check. -/
structure SpeakOutbound where
  voiceId : String
  apiKey : Option String
  text : Option String
  modelId : String
  stability : ℚ
  similarityBoost : ℚ
  deriving DecidableEq, Repr

/-- The ElevenLabs HTTP response as observed by the handler: the `ok`
flag, status, the result of `.json()` on the error path (may throw; the
payload serialization kept abstract), and the audio bytes delivered by
`.arrayBuffer()` on the success path. -/
structure ElevenResp where
  ok : Bool
  status : Nat
  json : Except String String
  bytes : List Nat
  deriving DecidableEq, Repr

/-- Outcome of the outbound `fetch` to ElevenLabs. -/
abbrev ElevenFetch := Except String ElevenResp

/-- The standalone speak handler (`part_000`): POST `{ text }`, forwards
to ElevenLabs, streams audio back or returns a JSON error envelope. -/
def speakHandler (env : Env) (req : SpeakReq) (eleven : ElevenFetch) :
    HandlerResult SpeakOutbound :=
  if req.method ≠ "POST" then
    { response := jsonResp 405 (.errorMsg "Method not allowed"), outbound := none }
  else
    match req.body with
    | none =>
        { response := jsonResp 500 (.errorMsg "Voice failed"), outbound := none }
    | some b =>
        let outReq : SpeakOutbound :=
          { voiceId := "4AgX6Piqqh5KT4pSisZQ",
            apiKey := env.ELEVENLABS_API_KEY,
            text := b.text,
            modelId := "eleven_flash_v2_5",
            stability := 0.5,
            similarityBoost := 0.75 }
        match eleven with
        | .error _ =>
            { response := jsonResp 500 (.errorMsg "Voice failed"), outbound := some outReq }
        | .ok resp =>
            if !resp.ok then
              match resp.json with
              | .error _ =>
                  { response := jsonResp 500 (.errorMsg "Voice failed"),
                    outbound := some outReq }
              | .ok err =>
                  { response := jsonResp 500 (.errorPayload err), outbound := some outReq }
            else
              { response :=
                  { status := 200, contentType := some "audio/mpeg",
                    body := .audioData resp.bytes },
                outbound := some outReq }

/-! ## Chat handler -/

/-- The POST the chat handler issues to the Anthropic messages endpoint:
the client's JSON body forwarded as-is (its serialization kept abstract),
the API key forwarded with no presence check, and the fixed version
header. -/
structure ChatOutbound where
  apiKey : Option String
  anthropicVersion : String
  body : String
  deriving DecidableEq, Repr

/-- The Anthropic HTTP response as observed by the handler: the `ok`
flag and status (both ignored by the code) and the result of `.json()`
(may throw; the payload serialization kept abstract). -/
structure ChatResp where
  ok : Bool
  status : Nat
  json : Except String String
  deriving DecidableEq, Repr

/-- Outcome of the outbound `fetch` to Anthropic. -/
abbrev ChatFetch := Except String ChatResp

/-- The express chat route body (`app.post` on the chat path): forwards
the request body verbatim and replies with `res.json(data)`, which uses
the express default status 200 regardless of the provider's status. -/
def chatHandler (env : Env) (body : String) (anthropic : ChatFetch) :
    HandlerResult ChatOutbound :=
  let outReq : ChatOutbound :=
    { apiKey := env.ANTHROPIC_API_KEY,
      anthropicVersion := "2023-06-01",
      body := body }
  match anthropic with
  | .error _ =>
      { response := jsonResp 500 (.errorMsg "Something went wrong"), outbound := some outReq }
  | .ok resp =>
      match resp.json with
      | .error _ =>
          { response := jsonResp 500 (.errorMsg "Something went wrong"),
            outbound := some outReq }
      | .ok data =>
          { response := jsonResp 200 (.json data), outbound := some outReq }

/-! ## Browser client -/

/-- A vocabulary entry of the chat-turn contract. -/
structure WordEntry where
  irish : String
  phonetic : String
  munster_note : String
  english : String
  deriving DecidableEq, Repr

/-- The object the client builds from the provider's raw text: the
fields of the vendor-imposed chat-turn contract that the client reads
(`message`, `message_spoken`, `words`, `suggestions`). -/
structure ParsedTurn where
  message : String
  message_spoken : Option String
  words : List WordEntry
  suggestions : List String
  deriving DecidableEq, Repr

/-- The region the greedy regex match on braces extracts from the raw
provider text: the substring running from the first opening brace to the
last closing brace, when a closing brace follows the first opening one;
`none` when the pattern does not match. -/
def braceMatch (raw : String) : Option String :=
  let cs := raw.data
  match cs.findIdx? (· = '{') with
  | none => none
  | some i =>
      match cs.reverse.findIdx? (· = '}') with
      | none => none
      | some j' =>
          let j := cs.length - 1 - j'
          if i < j then some (String.mk ((cs.drop i).take (j - i + 1))) else none

/-- The client's chat-turn deserialization: run the brace pattern match,
JSON-parse the matched region (or the whole raw text when the pattern
does not match), and on parse failure fall back to the raw text as the
message with empty words and suggestions. The JSON parser itself is the
JavaScript builtin, taken as a parameter; `none` models `JSON.parse`
throwing. -/
def parseTurn (jsonParse : String → Option ParsedTurn) (raw : String) : ParsedTurn :=
  match jsonParse ((braceMatch raw).getD raw) with
  | some p => p
  | none => { message := raw, message_spoken := none, words := [], suggestions := [] }

/-- A rendered chat message of the client's `messages` state. -/
structure ChatMsg where
  role : String
  text : String
  words : List WordEntry
  deriving DecidableEq, Repr

/-- The client UI state the send path touches. -/
structure ClientState where
  messages : List ChatMsg
  input : String
  loading : Bool
  suggestions : List String
  speaking : Bool
  deriving DecidableEq, Repr

/-- `text || input.trim()`: the message the send path would submit. -/
def sendMsg (text : Option String) (input : String) : String :=
  jsOr text input.trim

/-- The client's `send` function: guard on an empty message or the
loading flag, then push the user message, clear the input and
suggestions, stop speaking, and start the chat call (which sets the
loading flag). The returned Boolean records whether a chat request was
started. -/
def send (text : Option String) (s : ClientState) : ClientState × Bool :=
  let msg := sendMsg text s.input
  if msg = "" ∨ s.loading then (s, false)
  else
    ({ messages := s.messages ++ [{ role := "user", text := msg, words := [] }],
       input := "",
       loading := true,
       suggestions := [],
       speaking := false }, true)

/-! ## Claim theorems -/

/-- A present, non-empty string is truthy. -/
theorem truthy_some {s : String} (h : s ≠ "") : truthy (some s) = true := by
  simp [truthy, h]

/-- C1: for every POST to the transcription relay carrying a base64
`audio` string, the handler decodes it to binary and submits it to the
Azure endpoint as a multipart request with an `audio` file part and a
JSON `definition` part naming the en-IE/ga-IE locales, and on provider
success returns status 200 with body `{ text, language }`, text from the
first combined phrase and language from the first phrase's locale; this
holds for both REST handler variants. -/
theorem transcribe_post_success_contract (env : Env) (req : TranscribeReq)
    (audioStr : String) (resp : AzureHttpResp) (result : AzureResult)
    (hm : req.method = "POST")
    (hb : req.body = some { audio := some audioStr })
    (ha : audioStr ≠ "")
    (hk : truthy env.AZURE_SPEECH_KEY = true)
    (hr : truthy env.AZURE_SPEECH_REGION = true)
    (hok : resp.ok = true)
    (hjson : resp.json = .ok result) :
    transcribeHandler env req (.ok resp) =
      { response := jsonResp 200 (.transcript (fullText result) (detectedLang result)),
        outbound := some
          { endpoint := azureEndpoint (env.AZURE_SPEECH_REGION.getD ""),
            apiKey := env.AZURE_SPEECH_KEY.getD "",
            audioBytes := base64Decode audioStr,
            filename := "recording.m4a",
            audioContentType := "audio/mp4",
            definition := { locales := ["en-IE"],
                            candidateLocales := some ["en-IE", "ga-IE"] } } } ∧
    transcribeHandlerRest env req (.ok resp) =
      { response := jsonResp 200 (.transcript (fullText result) (detectedLang result)),
        outbound := some
          { endpoint := azureEndpoint (env.AZURE_SPEECH_REGION.getD ""),
            apiKey := env.AZURE_SPEECH_KEY.getD "",
            audioBytes := base64Decode audioStr,
            filename := "recording.m4a",
            audioContentType := "audio/mp4",
            definition := { locales := ["ga-IE", "en-IE"],
                            candidateLocales := none } } } ∧
    (∀ (t l : String) cs ps, t ≠ "" → l ≠ "" →
      fullText { combinedPhrases := some ({ text := some t } :: cs),
                 phrases := some ({ locale := some l } :: ps) } = t ∧
      detectedLang { combinedPhrases := some ({ text := some t } :: cs),
                     phrases := some ({ locale := some l } :: ps) } = l) := by
  refine ⟨?_, ?_, ?_⟩
  · simp [transcribeHandler, transcribeRestCore, hm, hb, hk, hr, hok, hjson, truthy_some ha]
  · simp [transcribeHandlerRest, transcribeRestCore, hm, hb, hk, hr, hok, hjson, truthy_some ha]
  · intro t l cs ps ht hl
    exact ⟨by simp [fullText, jsOr, ht], by simp [detectedLang, jsOr, hl]⟩

theorem transcribe_post_success_contract_witness :
    ("QQ==" : String) ≠ "" ∧
    transcribeHandler
        { AZURE_SPEECH_KEY := some "azkey", AZURE_SPEECH_REGION := some "westeurope",
          ELEVENLABS_API_KEY := none, ANTHROPIC_API_KEY := none }
        { method := "POST", body := some { audio := some "QQ==" } }
        (.ok { ok := true, status := 200, text := "",
               json := .ok { combinedPhrases := some [{ text := some "Dia duit" }],
                             phrases := some [{ locale := some "ga-IE" }] } }) =
      { response := jsonResp 200 (.transcript
          (fullText { combinedPhrases := some [{ text := some "Dia duit" }],
                      phrases := some [{ locale := some "ga-IE" }] })
          (detectedLang { combinedPhrases := some [{ text := some "Dia duit" }],
                          phrases := some [{ locale := some "ga-IE" }] })),
        outbound := some
          { endpoint := azureEndpoint ((some "westeurope").getD ""),
            apiKey := (some "azkey").getD "",
            audioBytes := base64Decode "QQ==",
            filename := "recording.m4a",
            audioContentType := "audio/mp4",
            definition := { locales := ["en-IE"],
                            candidateLocales := some ["en-IE", "ga-IE"] } } } :=
  ⟨by decide,
   (transcribe_post_success_contract _ _ "QQ==" _ _ rfl rfl (by decide) (by decide)
      (by decide) rfl rfl).1⟩

/-- C10: for every POST to a transcription handler whose JSON body is
absent or lacks a truthy `audio` field (with Azure credentials
configured), the handler returns status 400 with an error message and
issues no outbound request to the transcription provider, in all three
handler variants. -/
theorem transcribe_missing_audio_400 (env : Env) (req : TranscribeReq)
    (azure : AzureFetch) (sdk : SdkRecognize)
    (hm : req.method = "POST")
    (hk : truthy env.AZURE_SPEECH_KEY = true)
    (hr : truthy env.AZURE_SPEECH_REGION = true)
    (ha : truthy (req.body.getD { audio := none }).audio = false) :
    transcribeHandler env req azure =
      { response := jsonResp 400 (.errorMsg noAudioError), outbound := none } ∧
    transcribeHandlerRest env req azure =
      { response := jsonResp 400 (.errorMsg noAudioError), outbound := none } ∧
    transcribeHandlerSdk env req sdk =
      { response := jsonResp 400 (.errorMsg noAudioError), outbound := none } := by
  refine ⟨?_, ?_, ?_⟩
  · simp [transcribeHandler, transcribeRestCore, hm, hk, hr, ha]
  · simp [transcribeHandlerRest, transcribeRestCore, hm, hk, hr, ha]
  · simp [transcribeHandlerSdk, hm, hk, hr, ha]

theorem transcribe_missing_audio_400_witness :
    truthy (((none : Option TranscribeBody).getD { audio := none }).audio) = false ∧
    transcribeHandler
        { AZURE_SPEECH_KEY := some "azkey", AZURE_SPEECH_REGION := some "westeurope",
          ELEVENLABS_API_KEY := none, ANTHROPIC_API_KEY := none }
        { method := "POST", body := none } (.error "network down") =
      { response := jsonResp 400 (.errorMsg noAudioError), outbound := none } :=
  ⟨by decide,
   (transcribe_missing_audio_400
      { AZURE_SPEECH_KEY := some "azkey", AZURE_SPEECH_REGION := some "westeurope",
        ELEVENLABS_API_KEY := none, ANTHROPIC_API_KEY := none }
      { method := "POST", body := none } (.error "network down") (.error "network down")
      rfl (by decide) (by decide) (by decide)).1⟩

/-- C7: for every POST `{ text }` to the speech-synthesis relay, on
provider success the handler returns the raw audio bytes with an audio
content type (status 200), and on provider failure it returns a server
error (500) whose JSON body contains the provider's error detail. -/
theorem speak_success_error_contract (env : Env) (req : SpeakReq) (b : SpeakBody)
    (resp : ElevenResp)
    (hm : req.method = "POST")
    (hb : req.body = some b) :
    (resp.ok = true →
      (speakHandler env req (.ok resp)).response =
        { status := 200, contentType := some "audio/mpeg",
          body := .audioData resp.bytes }) ∧
    (∀ err, resp.ok = false → resp.json = .ok err →
      (speakHandler env req (.ok resp)).response =
        jsonResp 500 (.errorPayload err)) := by
  constructor
  · intro hok
    simp [speakHandler, hm, hb, hok]
  · intro err hok hjson
    simp [speakHandler, hm, hb, hok, hjson]

theorem speak_success_error_contract_witness :
    (speakHandler
        { AZURE_SPEECH_KEY := none, AZURE_SPEECH_REGION := none,
          ELEVENLABS_API_KEY := some "elkey", ANTHROPIC_API_KEY := none }
        { method := "POST", body := some { text := some "Dia duit" } }
        (.ok { ok := true, status := 200, json := .error "not json",
               bytes := [73, 68, 51] })).response =
      { status := 200, contentType := some "audio/mpeg",
        body := .audioData [73, 68, 51] } ∧
    (speakHandler
        { AZURE_SPEECH_KEY := none, AZURE_SPEECH_REGION := none,
          ELEVENLABS_API_KEY := some "elkey", ANTHROPIC_API_KEY := none }
        { method := "POST", body := some { text := some "Dia duit" } }
        (.ok { ok := false, status := 401,
               json := .ok "detected_unusual_activity", bytes := [] })).response =
      jsonResp 500 (.errorPayload "detected_unusual_activity") :=
  ⟨(speak_success_error_contract _ _ { text := some "Dia duit" } _ rfl rfl).1 rfl,
   (speak_success_error_contract _ _ { text := some "Dia duit" } _ rfl rfl).2
      "detected_unusual_activity" rfl rfl⟩

/-- C8: in the browser client, whenever the loading flag is set, `send`
is a no-op: the state is unchanged (no message added, input not cleared)
and no chat request is started, so a second chat request is never begun
while one is pending. -/
theorem send_noop_when_loading (text : Option String) (s : ClientState)
    (h : s.loading = true) : send text s = (s, false) := by
  simp [send, h]

theorem send_noop_when_loading_witness :
    send (some "Dia duit")
        { messages := [], input := "typed so far", loading := true,
          suggestions := ["Slán"], speaking := false } =
      ({ messages := [], input := "typed so far", loading := true,
         suggestions := ["Slán"], speaking := false }, false) :=
  send_noop_when_loading (some "Dia duit") _ rfl

/-- C9: the client's chat-turn deserialization only pattern-matches the
brace-delimited region of the raw provider text (the whole raw text when
the pattern finds none) and JSON-parses it; whenever that parse fails it
falls back to the raw text as the message with empty words and
suggestions. It is a total function of the raw text, so it never
raises. -/
theorem parseTurn_fallback_on_parse_failure (jsonParse : String → Option ParsedTurn)
    (raw : String)
    (h : jsonParse ((braceMatch raw).getD raw) = none) :
    parseTurn jsonParse raw =
      { message := raw, message_spoken := none, words := [], suggestions := [] } := by
  simp [parseTurn, h]

theorem parseTurn_fallback_on_parse_failure_witness :
    parseTurn (fun _ => none) "Dia duit, a chara" =
      { message := "Dia duit, a chara", message_spoken := none,
        words := [], suggestions := [] } :=
  parseTurn_fallback_on_parse_failure (fun _ => none) "Dia duit, a chara" rfl

/-- C2 counterexample: the chat handler does not check the provider's
`ok` flag; when the provider returns a non-success status, the forwarded
error payload is sent with status 200, not a 5xx server error. -/
theorem chat_provider_error_not_5xx_cex :
    (chatHandler
        { AZURE_SPEECH_KEY := none, AZURE_SPEECH_REGION := none,
          ELEVENLABS_API_KEY := none, ANTHROPIC_API_KEY := some "antkey" }
        "conversation-payload"
        (.ok { ok := false, status := 429, json := .ok "rate_limit_error" })).response =
      jsonResp 200 (.json "rate_limit_error") ∧
    ¬(500 ≤ (chatHandler
        { AZURE_SPEECH_KEY := none, AZURE_SPEECH_REGION := none,
          ELEVENLABS_API_KEY := none, ANTHROPIC_API_KEY := some "antkey" }
        "conversation-payload"
        (.ok { ok := false, status := 429,
               json := .ok "rate_limit_error" })).response.status) := by
  decide

/-- C2 amended: the speech-synthesis and transcription handlers respond
to a provider non-success with a server error embedding the provider's
error payload (502 for the REST transcription handlers, 500 for speak);
the chat handler instead forwards the provider's error payload with
status 200. -/
theorem provider_error_forwarding_amended :
    (∀ (env : Env) (req : TranscribeReq) (audioStr : String) (resp : AzureHttpResp),
      req.method = "POST" → req.body = some { audio := some audioStr } →
      audioStr ≠ "" → truthy env.AZURE_SPEECH_KEY = true →
      truthy env.AZURE_SPEECH_REGION = true → resp.ok = false →
      (transcribeHandler env req (.ok resp)).response =
        jsonResp 502 (.errorMsg ("Azure transcription failed: " ++ resp.text)) ∧
      (transcribeHandlerRest env req (.ok resp)).response =
        jsonResp 502 (.errorMsg ("Azure transcription failed: " ++ resp.text))) ∧
    (∀ (env : Env) (req : SpeakReq) (b : SpeakBody) (resp : ElevenResp) (err : String),
      req.method = "POST" → req.body = some b → resp.ok = false →
      resp.json = .ok err →
      (speakHandler env req (.ok resp)).response = jsonResp 500 (.errorPayload err)) ∧
    (∀ (env : Env) (body : String) (resp : ChatResp) (data : String),
      resp.ok = false → resp.json = .ok data →
      (chatHandler env body (.ok resp)).response = jsonResp 200 (.json data)) := by
  refine ⟨?_, ?_, ?_⟩
  · intro env req audioStr resp hm hb ha hk hr hok
    constructor
    · simp [transcribeHandler, transcribeRestCore, hm, hb, hk, hr, hok, truthy_some ha]
    · simp [transcribeHandlerRest, transcribeRestCore, hm, hb, hk, hr, hok, truthy_some ha]
  · intro env req b resp err hm hb hok hjson
    simp [speakHandler, hm, hb, hok, hjson]
  · intro env body resp data _ hjson
    simp [chatHandler, hjson]

theorem provider_error_forwarding_amended_witness :
    (transcribeHandler
        { AZURE_SPEECH_KEY := some "azkey", AZURE_SPEECH_REGION := some "eastus",
          ELEVENLABS_API_KEY := none, ANTHROPIC_API_KEY := none }
        { method := "POST", body := some { audio := some "AAAA" } }
        (.ok { ok := false, status := 400, text := "bad audio header",
               json := .error "no body" })).response =
      jsonResp 502 (.errorMsg ("Azure transcription failed: " ++ "bad audio header")) ∧
    (speakHandler
        { AZURE_SPEECH_KEY := none, AZURE_SPEECH_REGION := none,
          ELEVENLABS_API_KEY := some "elkey", ANTHROPIC_API_KEY := none }
        { method := "POST", body := some { text := some "Slán" } }
        (.ok { ok := false, status := 422, json := .ok "invalid_voice",
               bytes := [] })).response =
      jsonResp 500 (.errorPayload "invalid_voice") ∧
    (chatHandler
        { AZURE_SPEECH_KEY := none, AZURE_SPEECH_REGION := none,
          ELEVENLABS_API_KEY := none, ANTHROPIC_API_KEY := some "antkey" }
        "payload"
        (.ok { ok := false, status := 529, json := .ok "overloaded_error" })).response =
      jsonResp 200 (.json "overloaded_error") :=
  ⟨(provider_error_forwarding_amended.1 _ _ "AAAA" _ rfl rfl (by decide) (by decide)
      (by decide) rfl).1,
   provider_error_forwarding_amended.2.1 _ _ { text := some "Slán" } _ "invalid_voice"
      rfl rfl rfl rfl,
   provider_error_forwarding_amended.2.2 _ "payload" _ "overloaded_error" rfl rfl⟩

/-- C3 counterexample: the chat handler does not forward the provider's
status; it passes the provider's JSON body through but always replies
with the express default status 200, here against a provider status of
503. -/
theorem chat_status_not_forwarded_cex :
    (chatHandler
        { AZURE_SPEECH_KEY := none, AZURE_SPEECH_REGION := none,
          ELEVENLABS_API_KEY := none, ANTHROPIC_API_KEY := some "antkey2" }
        "chat-body"
        (.ok { ok := false, status := 503, json := .ok "maintenance" })).response.status
      ≠ 503 ∧
    (chatHandler
        { AZURE_SPEECH_KEY := none, AZURE_SPEECH_REGION := none,
          ELEVENLABS_API_KEY := none, ANTHROPIC_API_KEY := some "antkey2" }
        "chat-body"
        (.ok { ok := false, status := 503, json := .ok "maintenance" })).response =
      jsonResp 200 (.json "maintenance") := by
  decide

/-- C3 amended: the chat relay forwards the request JSON body unmodified
to the provider's messages endpoint and passes the provider's JSON
response body back verbatim, but it always responds with status 200; the
provider's success/error status is not forwarded. -/
theorem chat_passthrough_amended (env : Env) (body : String) (resp : ChatResp)
    (data : String) (hjson : resp.json = .ok data) :
    chatHandler env body (.ok resp) =
      { response := jsonResp 200 (.json data),
        outbound := some
          { apiKey := env.ANTHROPIC_API_KEY,
            anthropicVersion := "2023-06-01",
            body := body } } := by
  simp [chatHandler, hjson]

theorem chat_passthrough_amended_witness :
    chatHandler
        { AZURE_SPEECH_KEY := none, AZURE_SPEECH_REGION := none,
          ELEVENLABS_API_KEY := none, ANTHROPIC_API_KEY := some "antkey3" }
        "lesson-request"
        (.ok { ok := true, status := 200, json := .ok "lesson-response" }) =
      { response := jsonResp 200 (.json "lesson-response"),
        outbound := some
          { apiKey := some "antkey3",
            anthropicVersion := "2023-06-01",
            body := "lesson-request" } } :=
  chat_passthrough_amended _ "lesson-request" _ "lesson-response" rfl

/-- C4 counterexample: the transcription handler's boundary catch does
not use a fixed message; its 500 response embeds the exception message,
so two different exceptions yield two different bodies. -/
theorem transcribe_catch_message_not_fixed_cex :
    (transcribeHandler
        { AZURE_SPEECH_KEY := some "azkey", AZURE_SPEECH_REGION := some "eastus",
          ELEVENLABS_API_KEY := none, ANTHROPIC_API_KEY := none }
        { method := "POST", body := some { audio := some "AAAA" } }
        (.error "socket hang up")).response =
      jsonResp 500 (.errorMsg "Transcription failed: socket hang up") ∧
    (transcribeHandler
        { AZURE_SPEECH_KEY := some "azkey", AZURE_SPEECH_REGION := some "eastus",
          ELEVENLABS_API_KEY := none, ANTHROPIC_API_KEY := none }
        { method := "POST", body := some { audio := some "AAAA" } }
        (.error "certificate expired")).response =
      jsonResp 500 (.errorMsg "Transcription failed: certificate expired") ∧
    (transcribeHandler
        { AZURE_SPEECH_KEY := some "azkey", AZURE_SPEECH_REGION := some "eastus",
          ELEVENLABS_API_KEY := none, ANTHROPIC_API_KEY := none }
        { method := "POST", body := some { audio := some "AAAA" } }
        (.error "socket hang up")).response.body ≠
      (transcribeHandler
        { AZURE_SPEECH_KEY := some "azkey", AZURE_SPEECH_REGION := some "eastus",
          ELEVENLABS_API_KEY := none, ANTHROPIC_API_KEY := none }
        { method := "POST", body := some { audio := some "AAAA" } }
        (.error "certificate expired")).response.body := by
  decide

/-- C4 amended: every handler catches unexpected exceptions at its
boundary and converts them to a status-500 response; the chat and speak
handlers use the fixed messages "Something went wrong" and "Voice
failed", while the transcription handlers prepend "Transcription
failed: " to the exception's message (or "Unknown error" when it is
empty). -/
theorem handler_catch_semantics_amended :
    (∀ (env : Env) (body e : String),
      (chatHandler env body (.error e)).response =
        jsonResp 500 (.errorMsg "Something went wrong")) ∧
    (∀ (env : Env) (req : SpeakReq) (b : SpeakBody) (e : String),
      req.method = "POST" → req.body = some b →
      (speakHandler env req (.error e)).response =
        jsonResp 500 (.errorMsg "Voice failed")) ∧
    (∀ (env : Env) (req : TranscribeReq) (audioStr e : String),
      req.method = "POST" → req.body = some { audio := some audioStr } →
      audioStr ≠ "" → truthy env.AZURE_SPEECH_KEY = true →
      truthy env.AZURE_SPEECH_REGION = true →
      (transcribeHandler env req (.error e)).response =
        jsonResp 500 (.errorMsg ("Transcription failed: " ++ jsMessage e)) ∧
      (transcribeHandlerRest env req (.error e)).response =
        jsonResp 500 (.errorMsg ("Transcription failed: " ++ jsMessage e)) ∧
      (transcribeHandlerSdk env req (.error e)).response =
        jsonResp 500 (.errorMsg ("Transcription failed: " ++ jsMessage e))) := by
  refine ⟨?_, ?_, ?_⟩
  · intro env body e
    simp [chatHandler]
  · intro env req b e hm hb
    simp [speakHandler, hm, hb]
  · intro env req audioStr e hm hb ha hk hr
    refine ⟨?_, ?_, ?_⟩
    · simp [transcribeHandler, transcribeRestCore, hm, hb, hk, hr, truthy_some ha]
    · simp [transcribeHandlerRest, transcribeRestCore, hm, hb, hk, hr, truthy_some ha]
    · simp [transcribeHandlerSdk, sdkPromise, hm, hb, hk, hr, truthy_some ha]

theorem handler_catch_semantics_amended_witness :
    (chatHandler
        { AZURE_SPEECH_KEY := none, AZURE_SPEECH_REGION := none,
          ELEVENLABS_API_KEY := none, ANTHROPIC_API_KEY := some "antkey4" }
        "turn-payload" (.error "fetch failed")).response =
      jsonResp 500 (.errorMsg "Something went wrong") ∧
    (speakHandler
        { AZURE_SPEECH_KEY := none, AZURE_SPEECH_REGION := none,
          ELEVENLABS_API_KEY := some "elkey2", ANTHROPIC_API_KEY := none }
        { method := "POST", body := some { text := some "Slán go fóill" } }
        (.error "fetch failed")).response =
      jsonResp 500 (.errorMsg "Voice failed") ∧
    (transcribeHandlerSdk
        { AZURE_SPEECH_KEY := some "azkey2", AZURE_SPEECH_REGION := some "northeurope",
          ELEVENLABS_API_KEY := none, ANTHROPIC_API_KEY := none }
        { method := "POST", body := some { audio := some "UUUU" } }
        (.error "websocket closed")).response =
      jsonResp 500 (.errorMsg ("Transcription failed: " ++ jsMessage "websocket closed")) :=
  ⟨handler_catch_semantics_amended.1 _ "turn-payload" "fetch failed",
   handler_catch_semantics_amended.2.1 _ _ { text := some "Slán go fóill" }
      "fetch failed" rfl rfl,
   (handler_catch_semantics_amended.2.2 _ _ "UUUU" "websocket closed" rfl rfl
      (by decide) (by decide) (by decide)).2.2⟩

/-- C5 counterexample: the speak handler performs no presence check on
its provider API key; with the key absent from the environment it still
issues the outbound call (carrying the undefined credential) and returns
the provider's success response instead of a per-request configuration
error. -/
theorem speak_missing_key_forwarded_cex :
    (speakHandler
        { AZURE_SPEECH_KEY := none, AZURE_SPEECH_REGION := none,
          ELEVENLABS_API_KEY := none, ANTHROPIC_API_KEY := none }
        { method := "POST", body := some { text := some "Dia duit" } }
        (.ok { ok := true, status := 200, json := .error "not json",
               bytes := [255, 251] })) =
      { response := { status := 200, contentType := some "audio/mpeg",
                      body := .audioData [255, 251] },
        outbound := some
          { voiceId := "4AgX6Piqqh5KT4pSisZQ",
            apiKey := none,
            text := some "Dia duit",
            modelId := "eleven_flash_v2_5",
            stability := 0.5,
            similarityBoost := 0.75 } } := by
  rfl

/-- C5 amended: all handlers read provider credentials from the process
environment at request time; the transcription handlers fail a request
with a status-500 configuration error when the Azure key or region is
absent, but the speak and chat handlers perform no presence check and
forward the request to the provider with the (possibly undefined)
credential. -/
theorem env_credential_handling_amended :
    (∀ (env : Env) (req : TranscribeReq) (azure : AzureFetch) (sdk : SdkRecognize),
      req.method = "POST" →
      (truthy env.AZURE_SPEECH_KEY = false ∨ truthy env.AZURE_SPEECH_REGION = false) →
      transcribeHandler env req azure =
        { response := jsonResp 500 (.errorMsg azureConfigError), outbound := none } ∧
      transcribeHandlerRest env req azure =
        { response := jsonResp 500 (.errorMsg azureConfigError), outbound := none } ∧
      transcribeHandlerSdk env req sdk =
        { response := jsonResp 500 (.errorMsg azureConfigError), outbound := none }) ∧
    (∀ (env : Env) (req : SpeakReq) (b : SpeakBody) (eleven : ElevenFetch),
      req.method = "POST" → req.body = some b →
      (speakHandler env req eleven).outbound = some
        { voiceId := "4AgX6Piqqh5KT4pSisZQ",
          apiKey := env.ELEVENLABS_API_KEY,
          text := b.text,
          modelId := "eleven_flash_v2_5",
          stability := 0.5,
          similarityBoost := 0.75 }) ∧
    (∀ (env : Env) (body : String) (anthropic : ChatFetch),
      (chatHandler env body anthropic).outbound = some
        { apiKey := env.ANTHROPIC_API_KEY,
          anthropicVersion := "2023-06-01",
          body := body }) := by
  refine ⟨?_, ?_, ?_⟩
  · intro env req azure sdk hm hmiss
    have hcond : (!truthy env.AZURE_SPEECH_KEY || !truthy env.AZURE_SPEECH_REGION) = true := by
      rcases hmiss with h | h <;> simp [h]
    refine ⟨?_, ?_, ?_⟩
    · simp [transcribeHandler, transcribeRestCore, hm, hcond]
    · simp [transcribeHandlerRest, transcribeRestCore, hm, hcond]
    · simp [transcribeHandlerSdk, hm, hcond]
  · intro env req b eleven hm hb
    rcases eleven with e | resp
    · simp [speakHandler, hm, hb]
    · by_cases hok : resp.ok
      · simp [speakHandler, hm, hb, hok]
      · rcases hjson : resp.json with e | err <;>
          simp [speakHandler, hm, hb, hok, hjson]
  · intro env body anthropic
    rcases anthropic with e | resp
    · simp [chatHandler]
    · rcases hjson : resp.json with e | data <;> simp [chatHandler, hjson]

theorem env_credential_handling_amended_witness :
    transcribeHandler
        { AZURE_SPEECH_KEY := none, AZURE_SPEECH_REGION := some "eastus",
          ELEVENLABS_API_KEY := none, ANTHROPIC_API_KEY := none }
        { method := "POST", body := some { audio := some "AAAA" } } (.error "unused") =
      { response := jsonResp 500 (.errorMsg azureConfigError), outbound := none } ∧
    (speakHandler
        { AZURE_SPEECH_KEY := none, AZURE_SPEECH_REGION := none,
          ELEVENLABS_API_KEY := none, ANTHROPIC_API_KEY := none }
        { method := "POST", body := some { text := some "Conas atá tú?" } }
        (.error "unused")).outbound = some
      { voiceId := "4AgX6Piqqh5KT4pSisZQ",
        apiKey := none,
        text := some "Conas atá tú?",
        modelId := "eleven_flash_v2_5",
        stability := 0.5,
        similarityBoost := 0.75 } ∧
    (chatHandler
        { AZURE_SPEECH_KEY := none, AZURE_SPEECH_REGION := none,
          ELEVENLABS_API_KEY := none, ANTHROPIC_API_KEY := none }
        "turn" (.error "unused")).outbound = some
      { apiKey := none, anthropicVersion := "2023-06-01", body := "turn" } :=
  ⟨(env_credential_handling_amended.1 _ _ (.error "unused") (.error "unused") rfl
      (Or.inl (by decide))).1,
   env_credential_handling_amended.2.1 _ _ { text := some "Conas atá tú?" }
      (.error "unused") rfl rfl,
   env_credential_handling_amended.2.2 _ "turn" (.error "unused")⟩

/-- C6 counterexample: the CORS-enabled transcription handler answers an
OPTIONS request (which is not POST) with status 200, not a 4xx client
error. -/
theorem transcribe_options_not_4xx_cex :
    (transcribeHandler
        { AZURE_SPEECH_KEY := some "azkey", AZURE_SPEECH_REGION := some "eastus",
          ELEVENLABS_API_KEY := none, ANTHROPIC_API_KEY := none }
        { method := "OPTIONS", body := none } (.error "unused")).response.status = 200 ∧
    ¬(400 ≤ (transcribeHandler
        { AZURE_SPEECH_KEY := some "azkey", AZURE_SPEECH_REGION := some "eastus",
          ELEVENLABS_API_KEY := none, ANTHROPIC_API_KEY := none }
        { method := "OPTIONS", body := none } (.error "unused")).response.status ∧
      (transcribeHandler
        { AZURE_SPEECH_KEY := some "azkey", AZURE_SPEECH_REGION := some "eastus",
          ELEVENLABS_API_KEY := none, ANTHROPIC_API_KEY := none }
        { method := "OPTIONS", body := none } (.error "unused")).response.status < 500) := by
  decide

/-- C6 amended: every serverless handler rejects methods other than POST
and OPTIONS with status 405; OPTIONS is answered with status 200 (CORS
preflight) by the REST transcription handlers, while the SDK
transcription variant and the speak handler reject it with 405 like any
other non-POST method. -/
theorem non_post_method_rejection_amended :
    (∀ (env : Env) (req : TranscribeReq) (azure : AzureFetch),
      req.method ≠ "POST" → req.method ≠ "OPTIONS" →
      transcribeHandler env req azure =
        { response := jsonResp 405 (.errorMsg "Method not allowed"), outbound := none } ∧
      transcribeHandlerRest env req azure =
        { response := jsonResp 405 (.errorMsg "Method not allowed"), outbound := none }) ∧
    (∀ (env : Env) (req : TranscribeReq) (sdk : SdkRecognize),
      req.method ≠ "POST" →
      transcribeHandlerSdk env req sdk =
        { response := jsonResp 405 (.errorMsg "Method not allowed"), outbound := none }) ∧
    (∀ (env : Env) (req : SpeakReq) (eleven : ElevenFetch),
      req.method ≠ "POST" →
      speakHandler env req eleven =
        { response := jsonResp 405 (.errorMsg "Method not allowed"), outbound := none }) ∧
    (∀ (env : Env) (req : TranscribeReq) (azure : AzureFetch),
      req.method = "OPTIONS" →
      transcribeHandler env req azure =
        { response := jsonResp 200 .empty, outbound := none } ∧
      transcribeHandlerRest env req azure =
        { response := jsonResp 200 .empty, outbound := none }) := by
  refine ⟨?_, ?_, ?_, ?_⟩
  · intro env req azure hp ho
    constructor <;>
      simp [transcribeHandler, transcribeHandlerRest, transcribeRestCore, hp, ho]
  · intro env req sdk hp
    simp [transcribeHandlerSdk, hp]
  · intro env req eleven hp
    simp [speakHandler, hp]
  · intro env req azure ho
    constructor <;>
      simp [transcribeHandler, transcribeHandlerRest, transcribeRestCore, ho]

theorem non_post_method_rejection_amended_witness :
    transcribeHandler
        { AZURE_SPEECH_KEY := none, AZURE_SPEECH_REGION := none,
          ELEVENLABS_API_KEY := none, ANTHROPIC_API_KEY := none }
        { method := "GET", body := none } (.error "unused") =
      { response := jsonResp 405 (.errorMsg "Method not allowed"), outbound := none } ∧
    transcribeHandlerSdk
        { AZURE_SPEECH_KEY := none, AZURE_SPEECH_REGION := none,
          ELEVENLABS_API_KEY := none, ANTHROPIC_API_KEY := none }
        { method := "OPTIONS", body := none } (.error "unused") =
      { response := jsonResp 405 (.errorMsg "Method not allowed"), outbound := none } ∧
    speakHandler
        { AZURE_SPEECH_KEY := none, AZURE_SPEECH_REGION := none,
          ELEVENLABS_API_KEY := none, ANTHROPIC_API_KEY := none }
        { method := "DELETE", body := none } (.error "unused") =
      { response := jsonResp 405 (.errorMsg "Method not allowed"), outbound := none } ∧
    transcribeHandlerRest
        { AZURE_SPEECH_KEY := none, AZURE_SPEECH_REGION := none,
          ELEVENLABS_API_KEY := none, ANTHROPIC_API_KEY := none }
        { method := "OPTIONS", body := none } (.error "unused") =
      { response := jsonResp 200 .empty, outbound := none } :=
  ⟨(non_post_method_rejection_amended.1 _ _ (.error "unused") (by decide) (by decide)).1,
   non_post_method_rejection_amended.2.1 _ _ (.error "unused") (by decide),
   non_post_method_rejection_amended.2.2.1 _ _ (.error "unused") (by decide),
   (non_post_method_rejection_amended.2.2.2 _ _ (.error "unused") rfl).2⟩
